import Mathlib

/-!
Shallow embedding of `src/cascadia/TerminalApp/TerminalSettings.cpp`
(namespace `winrt::TerminalApp::implementation`).

The cpp file is the authority for all control flow.  The declarations it
consumes (the `TerminalSettings.h` field list, `Profile`, `ColorScheme`,
`GlobalAppSettings`, `CascadiaSettings`, `NewTerminalArgs`) are not in the
excerpt; those carriers are modelled from the spec (sections 3 and 6) as
plain records of the fields the cpp reads or writes.  Machine integers are
modelled as `Int`/`Nat`: every operation on them here is a copy or a
comparison, never arithmetic, so no overflow is reachable.  Colors are
packed 32-bit values; the `til::color` round trip is a one-to-one loss-free
reinterpretation per spec section 4.3, hence the identity here.  `double`
fields (acrylic and background-image opacity) are only ever copied verbatim,
so they are modelled as opaque numeric payloads.
-/

/-- Failure kinds reachable in the embedded code.  `invalidArgument` is
`E_INVALIDARG` raised via `THROW_HR_IF` / `THROW_HR_IF_NULL`; `outOfRange`
is the `std::out_of_range` exception raised by a checked `std::array::at`
access (inside the `noexcept` member `GetColorTableEntry` such a throw
terminates the process; either way it is not `E_INVALIDARG`). -/
inductive Err where
  | invalidArgument
  | outOfRange
  deriving DecidableEq, Repr

/-- Modelled from the spec: the `ColorScheme` record (spec section 3) — four
distinguished colors plus an ordered palette of exactly 16 colors; the
palette is read at indices 0..15 only. -/
structure ColorScheme where
  foreground : Nat
  background : Nat
  selectionBackground : Nat
  cursorColor : Nat
  table : Nat → Nat

/-- Modelled from the spec: the `Profile` record (spec section 3), restricted
to the fields the cpp reads.  `evaluatedStartingDirectory` and
`expandedBackgroundImagePath` carry the externally expanded forms returned by
`GetEvaluatedStartingDirectory` / `GetExpandedBackgroundImagePath` (expansion
is an external collaborator, spec section 6). -/
structure Profile where
  historySize : Int
  snapOnInput : Bool
  altGrAliasing : Bool
  cursorHeight : Nat
  cursorShape : Nat
  name : String
  useAcrylic : Bool
  acrylicOpacity : Nat
  fontFace : String
  fontSize : Int
  fontWeight : Nat
  padding : String
  commandline : String
  startingDirectory : String
  evaluatedStartingDirectory : String
  tabTitle : String
  suppressApplicationTitle : Bool
  colorSchemeName : String
  foreground : Option Nat
  background : Option Nat
  selectionBackground : Option Nat
  cursorColor : Option Nat
  scrollState : Nat
  backgroundImagePath : String
  expandedBackgroundImagePath : String
  backgroundImageOpacity : Nat
  backgroundImageStretchMode : Nat
  backgroundImageHorizontalAlignment : Nat
  backgroundImageVerticalAlignment : Nat
  retroTerminalEffect : Bool
  antialiasingMode : Nat
  tabColor : Option Nat

/-- Modelled from the spec: `GlobalAppSettings` (spec section 3) — the seven
global-layer fields the cpp reads, plus the scheme registry returned by
`GetColorSchemes()` (a name-to-scheme map with a non-throwing `TryLookup`,
spec section 6). -/
structure GlobalAppSettings where
  initialRows : Int
  initialCols : Int
  wordDelimiters : String
  copyOnSelect : Bool
  forceFullRepaintRendering : Bool
  softwareRendering : Bool
  forceVTInput : Bool
  colorSchemes : String → Option ColorScheme

/-- Modelled from the spec: `NewTerminalArgs` (spec section 3) — optional
commandline, starting directory and tab title; an empty string means
"do not override". -/
structure NewTerminalArgs where
  commandline : String
  startingDirectory : String
  tabTitle : String

/-- Profile identity (a GUID in the source; only equality is used). -/
abbrev Guid := Nat

/-- Modelled from the spec: the slice of `CascadiaSettings` the cpp consumes
(spec section 6): `FindProfile`, `GlobalSettings`, `GetProfileForArgs`. -/
structure CascadiaSettings where
  findProfile : Guid → Option Profile
  globalSettings : GlobalAppSettings
  getProfileForArgs : Option NewTerminalArgs → Guid

/-- The output snapshot, with the fields the cpp assigns.  The field list and
the 16-slot `_colorTable` array are declared in the missing header; modelled
from the spec (sections 3 and 4.2).  The table is modelled as a total map
guarded by the bounds checks of the access paths. -/
structure TerminalSettings where
  historySize : Int
  snapOnInput : Bool
  altGrAliasing : Bool
  cursorHeight : Nat
  cursorShape : Nat
  profileName : String
  useAcrylic : Bool
  tintOpacity : Nat
  fontFace : String
  fontSize : Int
  fontWeight : Nat
  padding : String
  commandline : String
  startingDirectory : String
  startingTitle : String
  suppressApplicationTitle : Bool
  defaultForeground : Nat
  defaultBackground : Nat
  selectionBackground : Nat
  cursorColor : Nat
  scrollState : Nat
  backgroundImage : String
  backgroundImageOpacity : Nat
  backgroundImageStretchMode : Nat
  backgroundImageHorizontalAlignment : Nat
  backgroundImageVerticalAlignment : Nat
  retroTerminalEffect : Bool
  antialiasingMode : Nat
  tabColor : Option Nat
  initialRows : Int
  initialCols : Int
  wordDelimiters : String
  copyOnSelect : Bool
  forceFullRepaintRendering : Bool
  softwareRendering : Bool
  forceVTInput : Bool
  colorTable : Nat → Nat

/-- Modelled from the spec: the default-constructed baseline snapshot (the
exact baseline values are an open question of the spec, section 9; none of
the verified properties depends on them). -/
def TerminalSettings.default : TerminalSettings where
  historySize := 0
  snapOnInput := false
  altGrAliasing := false
  cursorHeight := 0
  cursorShape := 0
  profileName := ""
  useAcrylic := false
  tintOpacity := 0
  fontFace := ""
  fontSize := 0
  fontWeight := 0
  padding := ""
  commandline := ""
  startingDirectory := ""
  startingTitle := ""
  suppressApplicationTitle := false
  defaultForeground := 0
  defaultBackground := 0
  selectionBackground := 0
  cursorColor := 0
  scrollState := 0
  backgroundImage := ""
  backgroundImageOpacity := 0
  backgroundImageStretchMode := 0
  backgroundImageHorizontalAlignment := 0
  backgroundImageVerticalAlignment := 0
  retroTerminalEffect := false
  antialiasingMode := 0
  tabColor := none
  initialRows := 0
  initialCols := 0
  wordDelimiters := ""
  copyOnSelect := false
  forceFullRepaintRendering := false
  softwareRendering := false
  forceVTInput := false
  colorTable := fun _ => 0

/-- `TerminalSettings::GetColorTableEntry` (cpp lines 202-205):
`return _colorTable.at(index);` with `index : int32_t`, declared `noexcept`.
`std::array<..,16>::at` converts the signed index to `size_t`, so a negative
index becomes a huge unsigned value: the access succeeds exactly when
`0 <= index < 16`, and otherwise raises `std::out_of_range` (which, in a
`noexcept` member, terminates — and in no case is `E_INVALIDARG`). -/
def GetColorTableEntry (s : TerminalSettings) (index : Int) : Except Err Nat :=
  if 0 ≤ index ∧ index < 16 then .ok (s.colorTable index.toNat)
  else .error .outOfRange

/-- `TerminalSettings::SetColorTableEntry` (cpp lines 207-212):
`THROW_HR_IF(E_INVALIDARG, index >= colorTableCount)` with
`colorTableCount = narrow_cast<int32_t>(_colorTable.size()) = 16`, then
`_colorTable.at(index) = value;`.  The explicit check only rejects the upper
side; a negative index passes it and is then rejected by `at` (converted to
`size_t`) with `std::out_of_range`. -/
def SetColorTableEntry (s : TerminalSettings) (index : Int) (value : Nat) :
    Except Err TerminalSettings :=
  if 16 ≤ index then .error .invalidArgument
  else if 0 ≤ index then
    .ok { s with colorTable := Function.update s.colorTable index.toNat value }
  else .error .outOfRange

/-- `TerminalSettings::_ApplyColorScheme` (cpp lines 177-190): overwrite the
four distinguished colors, then loop `for i = 0; i < tableCount; i++`
calling `SetColorTableEntry(i, table[i])` in ascending index order, where
`tableCount = table.size() = 16` (palette size per spec section 3).  A throw
from `SetColorTableEntry` would propagate, hence the `Except` result. -/
def _ApplyColorScheme (s : TerminalSettings) (scheme : ColorScheme) :
    Except Err TerminalSettings :=
  let s := { s with
    defaultForeground := scheme.foreground
    defaultBackground := scheme.background
    selectionBackground := scheme.selectionBackground
    cursorColor := scheme.cursorColor }
  (List.range 16).foldlM
    (fun s (i : Nat) => SetColorTableEntry s (i : Int) (scheme.table i)) s

/-- `TerminalSettings::ApplyColorScheme` (cpp lines 192-200): `TryLookup` the
name in the scheme map; on a hit apply the scheme and return `true`, on a
miss return `false` without touching the snapshot. -/
def ApplyColorScheme (s : TerminalSettings) (scheme : String)
    (schemes : String → Option ColorScheme) : Except Err (Bool × TerminalSettings) :=
  match schemes scheme with
  | some found => (_ApplyColorScheme s found).map fun s2 => (true, s2)
  | none => .ok (false, s)

/-- Concrete scheme used by witnesses. -/
def sampleScheme : ColorScheme where
  foreground := 1
  background := 2
  selectionBackground := 3
  cursorColor := 4
  table := fun i => 100 + i

/-- Concrete scheme registry used by witnesses: holds "Campbell" only. -/
def sampleSchemes : String → Option ColorScheme :=
  fun n => if n = "Campbell" then some sampleScheme else none

/-- First block of `TerminalSettings::_ApplyProfileSettings` (cpp lines
70-101), everything before the color-scheme lookup: core settings, visual
and font fields, commandline (lines 71-87), the conditional starting
directory (lines 89-92, expanded form), the unconditional starting-title
fallback (line 96) and the conditional suppress-application-title copy
(lines 98-101). -/
def profilePreScheme (s : TerminalSettings) (p : Profile) : TerminalSettings :=
  let s := { s with
    historySize := p.historySize
    snapOnInput := p.snapOnInput
    altGrAliasing := p.altGrAliasing
    cursorHeight := p.cursorHeight
    cursorShape := p.cursorShape
    profileName := p.name
    useAcrylic := p.useAcrylic
    tintOpacity := p.acrylicOpacity
    fontFace := p.fontFace
    fontSize := p.fontSize
    fontWeight := p.fontWeight
    padding := p.padding
    commandline := p.commandline }
  let s := if p.startingDirectory ≠ "" then
    { s with startingDirectory := p.evaluatedStartingDirectory } else s
  let s := { s with
    startingTitle := if p.tabTitle ≠ "" then p.tabTitle else p.name }
  if p.suppressApplicationTitle then
    { s with suppressApplicationTitle := p.suppressApplicationTitle } else s

/-- Last block of `TerminalSettings::_ApplyProfileSettings` (cpp lines
107-149), everything after the color-scheme lookup: the four conditional
profile-level colors (lines 107-126, applied after the scheme), scroll
state (line 128), the conditional background image path (lines 130-133,
expanded form), the unconditional image properties (lines 135-139), retro
effect and antialiasing (lines 141-143), and the conditional tab color
(lines 145-149). -/
def profilePostScheme (s : TerminalSettings) (p : Profile) : TerminalSettings :=
  let s := match p.foreground with
    | some c => { s with defaultForeground := c }
    | none => s
  let s := match p.background with
    | some c => { s with defaultBackground := c }
    | none => s
  let s := match p.selectionBackground with
    | some c => { s with selectionBackground := c }
    | none => s
  let s := match p.cursorColor with
    | some c => { s with cursorColor := c }
    | none => s
  let s := { s with scrollState := p.scrollState }
  let s := if p.backgroundImagePath ≠ "" then
    { s with backgroundImage := p.expandedBackgroundImagePath } else s
  let s := { s with
    backgroundImageOpacity := p.backgroundImageOpacity
    backgroundImageStretchMode := p.backgroundImageStretchMode
    backgroundImageHorizontalAlignment := p.backgroundImageHorizontalAlignment
    backgroundImageVerticalAlignment := p.backgroundImageVerticalAlignment
    retroTerminalEffect := p.retroTerminalEffect
    antialiasingMode := p.antialiasingMode }
  match p.tabColor with
  | some c => { s with tabColor := some c }
  | none => s

/-- `TerminalSettings::_ApplyProfileSettings` (cpp lines 68-150): the
pre-scheme block, then — only when the profile names a scheme (line 103) —
`ApplyColorScheme` with its `bool` result discarded (line 105), then the
post-scheme block.  A throw from scheme application would propagate. -/
def _ApplyProfileSettings (s : TerminalSettings) (p : Profile)
    (schemes : String → Option ColorScheme) : Except Err TerminalSettings :=
  let s1 := profilePreScheme s p
  match (if p.colorSchemeName ≠ "" then
      (ApplyColorScheme s1 p.colorSchemeName schemes).map Prod.snd
    else .ok s1) with
  | .error e => .error e
  | .ok s2 => .ok (profilePostScheme s2 p)

/-- `TerminalSettings::_ApplyGlobalSettings` (cpp lines 158-168):
unconditionally copy the seven global-layer fields. -/
def _ApplyGlobalSettings (s : TerminalSettings)
    (globalSettings : GlobalAppSettings) : TerminalSettings :=
  { s with
    initialRows := globalSettings.initialRows
    initialCols := globalSettings.initialCols
    wordDelimiters := globalSettings.wordDelimiters
    copyOnSelect := globalSettings.copyOnSelect
    forceFullRepaintRendering := globalSettings.forceFullRepaintRendering
    softwareRendering := globalSettings.softwareRendering
    forceVTInput := globalSettings.forceVTInput }

/-- `TerminalSettings::TerminalSettings(appSettings, profileGuid)` (cpp lines
11-19): `FindProfile`; a null result raises `E_INVALIDARG` via
`THROW_HR_IF_NULL` and nothing is constructed; otherwise apply the profile
(with the scheme registry from the globals) and then the globals, starting
from the default-constructed baseline. -/
def TerminalSettings.construct (appSettings : CascadiaSettings)
    (profileGuid : Guid) : Except Err TerminalSettings :=
  match appSettings.findProfile profileGuid with
  | none => .error .invalidArgument
  | some profile =>
    match _ApplyProfileSettings TerminalSettings.default profile
        appSettings.globalSettings.colorSchemes with
    | .error e => .error e
    | .ok s => .ok (_ApplyGlobalSettings s appSettings.globalSettings)

/-- `TerminalSettings::BuildSettings` (cpp lines 36-59): resolve the profile
guid via `GetProfileForArgs`, construct the settings from it, and — only
when a launch-argument object was supplied — override commandline, starting
directory (raw, unexpanded) and starting title (from the tab title), each
independently and only when the argument field is non-empty. -/
def BuildSettings (appSettings : CascadiaSettings)
    (newTerminalArgs : Option NewTerminalArgs) :
    Except Err (Guid × TerminalSettings) :=
  let profileGuid := appSettings.getProfileForArgs newTerminalArgs
  match TerminalSettings.construct appSettings profileGuid with
  | .error e => .error e
  | .ok settings =>
    let settings := match newTerminalArgs with
      | some args =>
        let s := if args.commandline ≠ "" then
          { settings with commandline := args.commandline } else settings
        let s := if args.startingDirectory ≠ "" then
          { s with startingDirectory := args.startingDirectory } else s
        if args.tabTitle ≠ "" then
          { s with startingTitle := args.tabTitle } else s
      | none => settings
    .ok (profileGuid, settings)

/-- Concrete globals used by witnesses; its scheme registry is the sample
registry. -/
def sampleGlobals : GlobalAppSettings where
  initialRows := 30
  initialCols := 80
  wordDelimiters := " "
  copyOnSelect := false
  forceFullRepaintRendering := false
  softwareRendering := false
  forceVTInput := true
  colorSchemes := sampleSchemes

/-- Concrete profile used by witnesses: names the scheme "Campbell" and also
supplies all five profile-level colors, a raw starting directory with its
evaluated form, and no tab title (so the title falls back to the name). -/
def sampleProfile : Profile where
  historySize := 9001
  snapOnInput := true
  altGrAliasing := true
  cursorHeight := 25
  cursorShape := 0
  name := "Alpha"
  useAcrylic := false
  acrylicOpacity := 50
  fontFace := "Cascadia"
  fontSize := 12
  fontWeight := 400
  padding := "8"
  commandline := "bash"
  startingDirectory := "raw"
  evaluatedStartingDirectory := "expanded"
  tabTitle := ""
  suppressApplicationTitle := false
  colorSchemeName := "Campbell"
  foreground := some 11
  background := some 12
  selectionBackground := some 13
  cursorColor := some 14
  scrollState := 0
  backgroundImagePath := ""
  expandedBackgroundImagePath := ""
  backgroundImageOpacity := 100
  backgroundImageStretchMode := 0
  backgroundImageHorizontalAlignment := 0
  backgroundImageVerticalAlignment := 0
  retroTerminalEffect := false
  antialiasingMode := 0
  tabColor := some 15

/-- Second concrete profile used by witnesses: an explicit tab title that
must win over the display name. -/
def profileB : Profile where
  historySize := 0
  snapOnInput := false
  altGrAliasing := false
  cursorHeight := 0
  cursorShape := 0
  name := "Beta"
  useAcrylic := false
  acrylicOpacity := 0
  fontFace := ""
  fontSize := 0
  fontWeight := 0
  padding := ""
  commandline := ""
  startingDirectory := ""
  evaluatedStartingDirectory := ""
  tabTitle := "Custom"
  suppressApplicationTitle := false
  colorSchemeName := ""
  foreground := none
  background := none
  selectionBackground := none
  cursorColor := none
  scrollState := 0
  backgroundImagePath := ""
  expandedBackgroundImagePath := ""
  backgroundImageOpacity := 0
  backgroundImageStretchMode := 0
  backgroundImageHorizontalAlignment := 0
  backgroundImageVerticalAlignment := 0
  retroTerminalEffect := false
  antialiasingMode := 0
  tabColor := none

/-- Concrete registries used by witnesses: guid 7 is `sampleProfile`, guid 8
is `profileB`, every launch request resolves to guid 7. -/
def sampleApp : CascadiaSettings where
  findProfile := fun g =>
    if g = 7 then some sampleProfile
    else if g = 8 then some profileB
    else none
  globalSettings := sampleGlobals
  getProfileForArgs := fun _ => 7

/-- Concrete registry with no profiles at all, used by witnesses. -/
def emptyApp : CascadiaSettings where
  findProfile := fun _ => none
  globalSettings := sampleGlobals
  getProfileForArgs := fun _ => 7

/-- Concrete launch arguments used by witnesses: commandline and tab title
set, starting directory left empty. -/
def sampleArgs : NewTerminalArgs where
  commandline := "zsh -l"
  startingDirectory := ""
  tabTitle := "Custom"

/-- Concrete launch arguments used by witnesses: only the starting directory
set. -/
def dirArgs : NewTerminalArgs where
  commandline := ""
  startingDirectory := "/tmp"
  tabTitle := ""

/-- C1 (amended): indices in [0,16) always succeed for both operations; every
index outside [0,16) makes both operations fail (no silent truncation, no
wraparound), but only `SetColorTableEntry` with `index ≥ 16` fails with
`InvalidArgument`; a negative index on `SetColorTableEntry`, and every
out-of-range index on `GetColorTableEntry`, fail with the out-of-range error
of the checked array access instead. -/
theorem colorTable_bounds (s : TerminalSettings) (index : Int) (value : Nat) :
    (0 ≤ index ∧ index < 16 →
      (∃ v, GetColorTableEntry s index = .ok v) ∧
      (∃ s2, SetColorTableEntry s index value = .ok s2)) ∧
    (index < 0 →
      GetColorTableEntry s index = .error .outOfRange ∧
      SetColorTableEntry s index value = .error .outOfRange) ∧
    (16 ≤ index →
      GetColorTableEntry s index = .error .outOfRange ∧
      SetColorTableEntry s index value = .error .invalidArgument) := by
  refine ⟨fun h => ?_, fun h => ?_, fun h => ?_⟩
  · constructor
    · exact ⟨_, by rw [GetColorTableEntry, if_pos h]⟩
    · exact ⟨_, by rw [SetColorTableEntry, if_neg (by omega), if_pos h.1]⟩
  · constructor
    · rw [GetColorTableEntry, if_neg (by omega)]
    · rw [SetColorTableEntry, if_neg (by omega), if_neg (by omega)]
  · constructor
    · rw [GetColorTableEntry, if_neg (by omega)]
    · rw [SetColorTableEntry, if_pos h]

/-- C1 witness: concrete boundary probes — index 5 succeeds on both
operations; 16 and INT_MAX make `SetColorTableEntry` fail with
`InvalidArgument`; 16 makes `GetColorTableEntry` fail with the out-of-range
error. -/
theorem colorTable_bounds_witness :
    (∃ v, GetColorTableEntry TerminalSettings.default 5 = .ok v) ∧
    (∃ s2, SetColorTableEntry TerminalSettings.default 5 7 = .ok s2) ∧
    SetColorTableEntry TerminalSettings.default 16 7 = .error .invalidArgument ∧
    SetColorTableEntry TerminalSettings.default 2147483647 7 = .error .invalidArgument ∧
    GetColorTableEntry TerminalSettings.default 16 = .error .outOfRange := by
  refine ⟨?_, ?_, ?_, ?_, ?_⟩
  · exact ((colorTable_bounds TerminalSettings.default 5 7).1 (by decide)).1
  · exact ((colorTable_bounds TerminalSettings.default 5 7).1 (by decide)).2
  · exact ((colorTable_bounds TerminalSettings.default 16 7).2.2 (by decide)).2
  · exact ((colorTable_bounds TerminalSettings.default 2147483647 7).2.2 (by decide)).2
  · exact ((colorTable_bounds TerminalSettings.default 16 7).2.2 (by decide)).1

/-- C1 counterexample: the claim as stated says index -1 makes both
operations fail with an `InvalidArgument` error; on the code both fail at -1
with the out-of-range error of the checked array access, which is a distinct
failure kind. -/
theorem colorTable_bounds_counterexample :
    SetColorTableEntry TerminalSettings.default (-1) 0 = .error .outOfRange ∧
    GetColorTableEntry TerminalSettings.default (-1) = .error .outOfRange ∧
    Err.outOfRange ≠ Err.invalidArgument := by
  refine ⟨?_, ?_, by decide⟩
  · rw [SetColorTableEntry, if_neg (by decide), if_neg (by decide)]
  · rw [GetColorTableEntry, if_neg (by decide)]

lemma exceptMap_ok {α β : Type} (f : α → β) (a : α) :
    Except.map f (Except.ok a : Except Err α) = .ok (f a) := rfl

lemma exceptBind_ok {α β : Type} (a : α) (f : α → Except Err β) :
    (Except.ok a >>= f) = f a := rfl

lemma setColorTableEntry_lt (s : TerminalSettings) (i : Nat) (v : Nat)
    (h : i < 16) :
    SetColorTableEntry s (i : Int) v =
      .ok { s with colorTable := Function.update s.colorTable i v } := by
  rw [SetColorTableEntry, if_neg (by omega), if_pos (by omega)]
  simp

lemma setEntries_foldlM (sch : ColorScheme) :
    ∀ (l : List Nat) (s : TerminalSettings), (∀ i ∈ l, i < 16) →
      l.foldlM (fun s (i : Nat) => SetColorTableEntry s (i : Int) (sch.table i)) s =
        .ok { s with colorTable :=
          fun j => if j ∈ l then sch.table j else s.colorTable j } := by
  intro l
  induction l with
  | nil =>
    intro s _
    rw [List.foldlM_nil]
    have h : (fun j => if j ∈ ([] : List Nat) then sch.table j else s.colorTable j)
        = s.colorTable := funext fun j => by simp
    rw [h]
    rfl
  | cons i l ih =>
    intro s hmem
    rw [List.foldlM_cons, setColorTableEntry_lt s i _ (hmem i (by simp)),
      exceptBind_ok, ih _ (fun j hj => hmem j (by simp [hj]))]
    have h : (fun j => if j ∈ l then sch.table j
          else Function.update s.colorTable i (sch.table i) j)
        = fun j => if j ∈ i :: l then sch.table j else s.colorTable j := by
      funext j
      by_cases hl : j ∈ l
      · simp [hl]
      · by_cases hi : j = i
        · subst hi; simp [hl, Function.update_apply]
        · simp [hl, hi, Function.update_apply]
    rw [h]

lemma _ApplyColorScheme_eq (s : TerminalSettings) (sch : ColorScheme) :
    _ApplyColorScheme s sch = .ok { s with
      defaultForeground := sch.foreground
      defaultBackground := sch.background
      selectionBackground := sch.selectionBackground
      cursorColor := sch.cursorColor
      colorTable := fun j => if j < 16 then sch.table j else s.colorTable j } := by
  rw [_ApplyColorScheme]
  rw [setEntries_foldlM sch (List.range 16) _ (fun i hi => List.mem_range.mp hi)]
  simp only [List.mem_range]

/-- C3: for a scheme name absent from the registry, `ApplyColorScheme`
returns `false` and the snapshot is returned completely unchanged (the very
same record, every field and every prior color value included). -/
theorem applyColorScheme_unknown (s : TerminalSettings) (name : String)
    (schemes : String → Option ColorScheme) (h : schemes name = none) :
    ApplyColorScheme s name schemes = .ok (false, s) := by
  rw [ApplyColorScheme, h]

/-- C3 witness: an unknown scheme name on the concrete registry holding only
"Campbell" returns failure with the untouched snapshot. -/
theorem applyColorScheme_unknown_witness :
    ApplyColorScheme TerminalSettings.default "NoSuchScheme" sampleSchemes =
      .ok (false, TerminalSettings.default) :=
  applyColorScheme_unknown TerminalSettings.default "NoSuchScheme"
    sampleSchemes rfl

/-- C4: for a scheme name present in the registry, `ApplyColorScheme`
returns `true` and the resulting snapshot holds exactly the scheme's
foreground, background, selection background and cursor colors, and every
one of the 16 color-table entries equals the scheme's palette entry (the
entries are written in index order 0..15 by the loop). -/
theorem applyColorScheme_known (s : TerminalSettings) (name : String)
    (schemes : String → Option ColorScheme) (sch : ColorScheme)
    (h : schemes name = some sch) :
    ∃ s2, ApplyColorScheme s name schemes = .ok (true, s2) ∧
      s2.defaultForeground = sch.foreground ∧
      s2.defaultBackground = sch.background ∧
      s2.selectionBackground = sch.selectionBackground ∧
      s2.cursorColor = sch.cursorColor ∧
      (∀ j, j < 16 → s2.colorTable j = sch.table j) := by
  simp only [ApplyColorScheme, h, _ApplyColorScheme_eq, exceptMap_ok]
  exact ⟨_, rfl, rfl, rfl, rfl, rfl, fun j hj => by simp [hj]⟩

/-- C4 witness: applying the concrete scheme "Campbell" from the concrete
registry succeeds and installs its four colors and 16 palette entries. -/
theorem applyColorScheme_known_witness :
    ∃ s2, ApplyColorScheme TerminalSettings.default "Campbell" sampleSchemes =
        .ok (true, s2) ∧
      s2.defaultForeground = 1 ∧
      s2.defaultBackground = 2 ∧
      s2.selectionBackground = 3 ∧
      s2.cursorColor = 4 ∧
      (∀ j, j < 16 → s2.colorTable j = 100 + j) :=
  applyColorScheme_known TerminalSettings.default "Campbell"
    sampleSchemes sampleScheme rfl

lemma applyScheme_miss (s : TerminalSettings) (name : String)
    (schemes : String → Option ColorScheme) (h : schemes name = none) :
    ApplyColorScheme s name schemes = .ok (false, s) := by
  rw [ApplyColorScheme, h]

lemma applyScheme_hit (s : TerminalSettings) (name : String)
    (schemes : String → Option ColorScheme) (sch : ColorScheme)
    (h : schemes name = some sch) :
    ApplyColorScheme s name schemes = .ok (true, { s with
      defaultForeground := sch.foreground
      defaultBackground := sch.background
      selectionBackground := sch.selectionBackground
      cursorColor := sch.cursorColor
      colorTable := fun j => if j < 16 then sch.table j else s.colorTable j }) := by
  simp only [ApplyColorScheme, h, _ApplyColorScheme_eq, exceptMap_ok]

lemma preScheme_commandline (s : TerminalSettings) (p : Profile) :
    (profilePreScheme s p).commandline = p.commandline := by
  simp only [profilePreScheme]
  repeat' split
  all_goals rfl

lemma preScheme_startingDirectory (s : TerminalSettings) (p : Profile) :
    (profilePreScheme s p).startingDirectory =
      (if p.startingDirectory ≠ "" then p.evaluatedStartingDirectory
       else s.startingDirectory) := by
  by_cases hd : p.startingDirectory = "" <;>
    by_cases hs : p.suppressApplicationTitle = true <;>
    simp [profilePreScheme, hd, hs]

lemma preScheme_startingTitle (s : TerminalSettings) (p : Profile) :
    (profilePreScheme s p).startingTitle =
      (if p.tabTitle ≠ "" then p.tabTitle else p.name) := by
  by_cases hd : p.startingDirectory = "" <;>
    by_cases hs : p.suppressApplicationTitle = true <;>
    simp [profilePreScheme, hd, hs]

lemma postScheme_commandline (s : TerminalSettings) (p : Profile) :
    (profilePostScheme s p).commandline = s.commandline := by
  simp only [profilePostScheme]
  repeat' split
  all_goals rfl

lemma postScheme_startingDirectory (s : TerminalSettings) (p : Profile) :
    (profilePostScheme s p).startingDirectory = s.startingDirectory := by
  simp only [profilePostScheme]
  repeat' split
  all_goals rfl

lemma postScheme_startingTitle (s : TerminalSettings) (p : Profile) :
    (profilePostScheme s p).startingTitle = s.startingTitle := by
  simp only [profilePostScheme]
  repeat' split
  all_goals rfl

lemma postScheme_foreground (s : TerminalSettings) (p : Profile) (c : Nat)
    (h : p.foreground = some c) :
    (profilePostScheme s p).defaultForeground = c := by
  simp only [profilePostScheme, h]
  repeat' split
  all_goals rfl

lemma postScheme_background (s : TerminalSettings) (p : Profile) (c : Nat)
    (h : p.background = some c) :
    (profilePostScheme s p).defaultBackground = c := by
  simp only [profilePostScheme, h]
  repeat' split
  all_goals rfl

lemma postScheme_selectionBackground (s : TerminalSettings) (p : Profile)
    (c : Nat) (h : p.selectionBackground = some c) :
    (profilePostScheme s p).selectionBackground = c := by
  simp only [profilePostScheme, h]
  repeat' split
  all_goals rfl

lemma postScheme_cursorColor (s : TerminalSettings) (p : Profile) (c : Nat)
    (h : p.cursorColor = some c) :
    (profilePostScheme s p).cursorColor = c := by
  simp only [profilePostScheme, h]
  repeat' split
  all_goals rfl

lemma postScheme_tabColor (s : TerminalSettings) (p : Profile) (c : Nat)
    (h : p.tabColor = some c) :
    (profilePostScheme s p).tabColor = some c := by
  simp only [profilePostScheme, h]

lemma applyProfileSettings_ok (s : TerminalSettings) (p : Profile)
    (schemes : String → Option ColorScheme) :
    ∃ s2, _ApplyProfileSettings s p schemes = .ok (profilePostScheme s2 p) ∧
      s2.commandline = p.commandline ∧
      s2.startingDirectory =
        (if p.startingDirectory ≠ "" then p.evaluatedStartingDirectory
         else s.startingDirectory) ∧
      s2.startingTitle = (if p.tabTitle ≠ "" then p.tabTitle else p.name) := by
  by_cases hcs : p.colorSchemeName = ""
  · exact ⟨profilePreScheme s p, by simp [_ApplyProfileSettings, hcs],
      preScheme_commandline s p, preScheme_startingDirectory s p,
      preScheme_startingTitle s p⟩
  · cases hl : schemes p.colorSchemeName with
    | none =>
      exact ⟨profilePreScheme s p,
        by simp [_ApplyProfileSettings, hcs, exceptMap_ok,
          applyScheme_miss (profilePreScheme s p) _ schemes hl],
        preScheme_commandline s p, preScheme_startingDirectory s p,
        preScheme_startingTitle s p⟩
    | some sch =>
      refine ⟨{ profilePreScheme s p with
          defaultForeground := sch.foreground
          defaultBackground := sch.background
          selectionBackground := sch.selectionBackground
          cursorColor := sch.cursorColor
          colorTable := fun j => if j < 16 then sch.table j
            else (profilePreScheme s p).colorTable j }, ?_, ?_, ?_, ?_⟩
      · simp [_ApplyProfileSettings, hcs,
          applyScheme_hit (profilePreScheme s p) _ schemes sch hl, exceptMap_ok]
      · exact preScheme_commandline s p
      · exact preScheme_startingDirectory s p
      · exact preScheme_startingTitle s p

/-- C2: construction from a profile identity looks the identity up exactly
once; an absent identity fails with `InvalidArgument` and no snapshot of any
kind is produced, and this lookup is the only failure mode — whenever the
identity resolves, construction succeeds with a snapshot. -/
theorem construct_failure_mode (app : CascadiaSettings) (guid : Guid) :
    (app.findProfile guid = none →
      TerminalSettings.construct app guid = .error .invalidArgument) ∧
    (∀ p, app.findProfile guid = some p →
      ∃ s, TerminalSettings.construct app guid = .ok s) := by
  constructor
  · intro h
    simp [TerminalSettings.construct, h]
  · intro p h
    obtain ⟨s2, happ, -, -, -⟩ := applyProfileSettings_ok TerminalSettings.default
      p app.globalSettings.colorSchemes
    exact ⟨_ApplyGlobalSettings (profilePostScheme s2 p) app.globalSettings,
      by simp only [TerminalSettings.construct, h, happ]⟩

/-- C5: for each of the four distinguished colors and for tab color, a color
the profile explicitly supplies ends up in the composed snapshot for that
channel — the per-channel profile writes (cpp lines 107-126 and 145-149) run
after scheme application (line 105), so they win over any scheme value, for
every profile and every scheme registry. -/
theorem profileColors_override_scheme (s : TerminalSettings) (p : Profile)
    (schemes : String → Option ColorScheme) :
    ∃ s3, _ApplyProfileSettings s p schemes = .ok s3 ∧
      (∀ c, p.foreground = some c → s3.defaultForeground = c) ∧
      (∀ c, p.background = some c → s3.defaultBackground = c) ∧
      (∀ c, p.selectionBackground = some c → s3.selectionBackground = c) ∧
      (∀ c, p.cursorColor = some c → s3.cursorColor = c) ∧
      (∀ c, p.tabColor = some c → s3.tabColor = some c) := by
  obtain ⟨s2, h, -, -, -⟩ := applyProfileSettings_ok s p schemes
  exact ⟨_, h,
    fun c hc => postScheme_foreground s2 p c hc,
    fun c hc => postScheme_background s2 p c hc,
    fun c hc => postScheme_selectionBackground s2 p c hc,
    fun c hc => postScheme_cursorColor s2 p c hc,
    fun c hc => postScheme_tabColor s2 p c hc⟩

/-- C6: the composed snapshot's starting title is the profile's tab title
when that is non-empty, and the profile's display name otherwise; the
fallback is applied unconditionally during profile application (cpp line
96), before any launch-time override step. -/
theorem startingTitle_fallback (app : CascadiaSettings) (guid : Guid)
    (p : Profile) (h : app.findProfile guid = some p) :
    ∃ s, TerminalSettings.construct app guid = .ok s ∧
      s.startingTitle = (if p.tabTitle ≠ "" then p.tabTitle else p.name) := by
  obtain ⟨s2, happ, -, -, htitle⟩ := applyProfileSettings_ok
    TerminalSettings.default p app.globalSettings.colorSchemes
  refine ⟨_ApplyGlobalSettings (profilePostScheme s2 p) app.globalSettings,
    ?_, ?_⟩
  · simp only [TerminalSettings.construct, h, happ]
  · exact (postScheme_startingTitle s2 p).trans htitle

/-- C7: when a launch-argument object is supplied, the built snapshot is
exactly the constructed snapshot with each of the three override fields —
commandline, starting directory, starting title (from the argument's tab
title) — overwritten independently if and only if that argument field is
non-empty; an empty field keeps the constructed value, and every other
snapshot field is untouched, so an object with only a title set overrides
the title alone. -/
theorem buildSettings_overrides (app : CascadiaSettings)
    (args : NewTerminalArgs) (s0 : TerminalSettings)
    (h : TerminalSettings.construct app
      (app.getProfileForArgs (some args)) = .ok s0) :
    BuildSettings app (some args) = .ok (app.getProfileForArgs (some args),
      { s0 with
        commandline :=
          if args.commandline ≠ "" then args.commandline else s0.commandline
        startingDirectory :=
          if args.startingDirectory ≠ "" then args.startingDirectory
          else s0.startingDirectory
        startingTitle :=
          if args.tabTitle ≠ "" then args.tabTitle else s0.startingTitle }) := by
  simp only [BuildSettings, h]
  by_cases hc : args.commandline = "" <;>
    by_cases hd : args.startingDirectory = "" <;>
    by_cases ht : args.tabTitle = "" <;>
    simp [hc, hd, ht]

/-- C8: applying the global settings overwrites exactly the seven
global-layer fields (initial rows, initial columns, word delimiters,
copy-on-select, force-full-repaint, software rendering, force-VT-input)
with the globals' values regardless of the incoming snapshot, and leaves
every one of the thirty other snapshot fields — all color fields and the
color table included — unchanged. -/
theorem applyGlobalSettings_frame (s : TerminalSettings)
    (g : GlobalAppSettings) :
    (_ApplyGlobalSettings s g).initialRows = g.initialRows ∧
    (_ApplyGlobalSettings s g).initialCols = g.initialCols ∧
    (_ApplyGlobalSettings s g).wordDelimiters = g.wordDelimiters ∧
    (_ApplyGlobalSettings s g).copyOnSelect = g.copyOnSelect ∧
    (_ApplyGlobalSettings s g).forceFullRepaintRendering =
      g.forceFullRepaintRendering ∧
    (_ApplyGlobalSettings s g).softwareRendering = g.softwareRendering ∧
    (_ApplyGlobalSettings s g).forceVTInput = g.forceVTInput ∧
    (_ApplyGlobalSettings s g).historySize = s.historySize ∧
    (_ApplyGlobalSettings s g).snapOnInput = s.snapOnInput ∧
    (_ApplyGlobalSettings s g).altGrAliasing = s.altGrAliasing ∧
    (_ApplyGlobalSettings s g).cursorHeight = s.cursorHeight ∧
    (_ApplyGlobalSettings s g).cursorShape = s.cursorShape ∧
    (_ApplyGlobalSettings s g).profileName = s.profileName ∧
    (_ApplyGlobalSettings s g).useAcrylic = s.useAcrylic ∧
    (_ApplyGlobalSettings s g).tintOpacity = s.tintOpacity ∧
    (_ApplyGlobalSettings s g).fontFace = s.fontFace ∧
    (_ApplyGlobalSettings s g).fontSize = s.fontSize ∧
    (_ApplyGlobalSettings s g).fontWeight = s.fontWeight ∧
    (_ApplyGlobalSettings s g).padding = s.padding ∧
    (_ApplyGlobalSettings s g).commandline = s.commandline ∧
    (_ApplyGlobalSettings s g).startingDirectory = s.startingDirectory ∧
    (_ApplyGlobalSettings s g).startingTitle = s.startingTitle ∧
    (_ApplyGlobalSettings s g).suppressApplicationTitle =
      s.suppressApplicationTitle ∧
    (_ApplyGlobalSettings s g).defaultForeground = s.defaultForeground ∧
    (_ApplyGlobalSettings s g).defaultBackground = s.defaultBackground ∧
    (_ApplyGlobalSettings s g).selectionBackground = s.selectionBackground ∧
    (_ApplyGlobalSettings s g).cursorColor = s.cursorColor ∧
    (_ApplyGlobalSettings s g).scrollState = s.scrollState ∧
    (_ApplyGlobalSettings s g).backgroundImage = s.backgroundImage ∧
    (_ApplyGlobalSettings s g).backgroundImageOpacity =
      s.backgroundImageOpacity ∧
    (_ApplyGlobalSettings s g).backgroundImageStretchMode =
      s.backgroundImageStretchMode ∧
    (_ApplyGlobalSettings s g).backgroundImageHorizontalAlignment =
      s.backgroundImageHorizontalAlignment ∧
    (_ApplyGlobalSettings s g).backgroundImageVerticalAlignment =
      s.backgroundImageVerticalAlignment ∧
    (_ApplyGlobalSettings s g).retroTerminalEffect = s.retroTerminalEffect ∧
    (_ApplyGlobalSettings s g).antialiasingMode = s.antialiasingMode ∧
    (_ApplyGlobalSettings s g).tabColor = s.tabColor ∧
    (_ApplyGlobalSettings s g).colorTable = s.colorTable := by
  exact ⟨rfl, rfl, rfl, rfl, rfl, rfl, rfl, rfl, rfl, rfl, rfl, rfl, rfl,
    rfl, rfl, rfl, rfl, rfl, rfl, rfl, rfl, rfl, rfl, rfl, rfl, rfl, rfl,
    rfl, rfl, rfl, rfl, rfl, rfl, rfl, rfl, rfl, rfl⟩

/-- C9: the snapshot's starting directory is populated with the profile's
expanded (evaluated) form exactly when the profile's raw starting directory
is non-empty (cpp lines 89-92), while a non-empty launch-time
starting-directory override is stored in the snapshot as supplied, raw and
not re-expanded (cpp lines 48-51). -/
theorem startingDirectory_handling (s : TerminalSettings) (p : Profile)
    (schemes : String → Option ColorScheme) (app : CascadiaSettings)
    (args : NewTerminalArgs) :
    (∃ s3, _ApplyProfileSettings s p schemes = .ok s3 ∧
      s3.startingDirectory =
        (if p.startingDirectory ≠ "" then p.evaluatedStartingDirectory
         else s.startingDirectory)) ∧
    (∀ g s0, BuildSettings app (some args) = .ok (g, s0) →
      args.startingDirectory ≠ "" →
      s0.startingDirectory = args.startingDirectory) := by
  constructor
  · obtain ⟨s2, h, -, hdir, -⟩ := applyProfileSettings_ok s p schemes
    exact ⟨_, h, (postScheme_startingDirectory s2 p).trans hdir⟩
  · intro g s0 hB hdir
    cases hc : TerminalSettings.construct app
        (app.getProfileForArgs (some args)) with
    | error e => simp [BuildSettings, hc] at hB
    | ok st =>
      simp only [BuildSettings, hc] at hB
      rw [Except.ok.injEq, Prod.mk.injEq] at hB
      obtain ⟨-, hs⟩ := hB
      rw [← hs]
      by_cases ht : args.tabTitle = "" <;>
        by_cases hcl : args.commandline = "" <;> simp [ht, hcl, hdir]

/-- C10: building settings with an absent (null) launch-argument object is
field-for-field the result of constructing directly from the profile
identity that `GetProfileForArgs` resolves for absent arguments, paired with
that identity — the override block is skipped entirely. -/
theorem buildSettings_null_args (app : CascadiaSettings) :
    BuildSettings app none =
      Except.map (fun s => (app.getProfileForArgs none, s))
        (TerminalSettings.construct app (app.getProfileForArgs none)) := by
  cases hc : TerminalSettings.construct app (app.getProfileForArgs none) <;>
    simp [BuildSettings, hc, Except.map]

/-- C2 witness: the empty registry makes construction fail with
`InvalidArgument`; the populated registry makes it succeed. -/
theorem construct_failure_mode_witness :
    TerminalSettings.construct emptyApp 7 = .error .invalidArgument ∧
    ∃ s, TerminalSettings.construct sampleApp 7 = .ok s :=
  ⟨(construct_failure_mode emptyApp 7).1 rfl,
   (construct_failure_mode sampleApp 7).2 sampleProfile rfl⟩

/-- C5 witness: the concrete profile names the scheme "Campbell" (foreground
1, background 2, selection 3, cursor 4) yet its own explicit colors 11..15
end up in the snapshot. -/
theorem profileColors_override_scheme_witness :
    ∃ s3, _ApplyProfileSettings TerminalSettings.default sampleProfile
        sampleSchemes = .ok s3 ∧
      s3.defaultForeground = 11 ∧ s3.defaultBackground = 12 ∧
      s3.selectionBackground = 13 ∧ s3.cursorColor = 14 ∧
      s3.tabColor = some 15 := by
  obtain ⟨s3, h, hf, hb, hs, hc, ht⟩ := profileColors_override_scheme
    TerminalSettings.default sampleProfile sampleSchemes
  exact ⟨s3, h, hf 11 rfl, hb 12 rfl, hs 13 rfl, hc 14 rfl, ht 15 rfl⟩

/-- C6 witness: profile "Alpha" with no tab title resolves its starting
title to "Alpha"; profile "Beta" with tab title "Custom" resolves it to
"Custom". -/
theorem startingTitle_fallback_witness :
    (∃ s, TerminalSettings.construct sampleApp 7 = .ok s ∧
      s.startingTitle = "Alpha") ∧
    (∃ s, TerminalSettings.construct sampleApp 8 = .ok s ∧
      s.startingTitle = "Custom") := by
  constructor
  · obtain ⟨s, h1, h2⟩ := startingTitle_fallback sampleApp 7 sampleProfile rfl
    exact ⟨s, h1, h2.trans (by decide)⟩
  · obtain ⟨s, h1, h2⟩ := startingTitle_fallback sampleApp 8 profileB rfl
    exact ⟨s, h1, h2.trans (by decide)⟩

/-- C7 witness: launch arguments with commandline "zsh -l", empty starting
directory and tab title "Custom" yield the constructed snapshot with exactly
those two fields overridden. -/
theorem buildSettings_overrides_witness :
    ∃ s0, TerminalSettings.construct sampleApp
        (sampleApp.getProfileForArgs (some sampleArgs)) = .ok s0 ∧
      BuildSettings sampleApp (some sampleArgs) =
        .ok (sampleApp.getProfileForArgs (some sampleArgs),
          { s0 with
            commandline := if sampleArgs.commandline ≠ "" then
              sampleArgs.commandline else s0.commandline
            startingDirectory := if sampleArgs.startingDirectory ≠ "" then
              sampleArgs.startingDirectory else s0.startingDirectory
            startingTitle := if sampleArgs.tabTitle ≠ "" then
              sampleArgs.tabTitle else s0.startingTitle }) := by
  obtain ⟨s0, h⟩ : ∃ s0, TerminalSettings.construct sampleApp
      (sampleApp.getProfileForArgs (some sampleArgs)) = .ok s0 := ⟨_, rfl⟩
  exact ⟨s0, h, buildSettings_overrides sampleApp sampleArgs s0 h⟩

/-- C9 witness: the profile's non-empty raw directory "raw" yields its
evaluated form "expanded" in the snapshot, while the launch-time override
"/tmp" is stored exactly as supplied. -/
theorem startingDirectory_handling_witness :
    (∃ s3, _ApplyProfileSettings TerminalSettings.default sampleProfile
        sampleSchemes = .ok s3 ∧
      s3.startingDirectory = "expanded") ∧
    (∃ g s0, BuildSettings sampleApp (some dirArgs) = .ok (g, s0) ∧
      s0.startingDirectory = "/tmp") := by
  have h := startingDirectory_handling TerminalSettings.default sampleProfile
    sampleSchemes sampleApp dirArgs
  constructor
  · obtain ⟨s3, h1, h2⟩ := h.1
    exact ⟨s3, h1, h2.trans (by decide)⟩
  · obtain ⟨g, s0, hB⟩ : ∃ g s0, BuildSettings sampleApp (some dirArgs) =
        .ok (g, s0) := ⟨_, _, rfl⟩
    exact ⟨g, s0, hB, (h.2 g s0 hB (by decide)).trans rfl⟩
